import Mathlib

set_option maxHeartbeats 1000000

/-!
Verification development for the VertexAIAnthropicConfig request and
response transformation (litellm, vertex_ai_partner_models/anthropic/
transformation.py). The Python data is shallowly embedded: a message is a
record of its role, content and thinking_blocks truthiness; dict presence
of optional keys is an Option; list-valued content is a list of tagged
items. Collaborator functions that are not part of the source tree
(the parent AnthropicConfig converter, the tool-kind detectors, the
system-message extractor, the code-execution augmenter and the global
config merge) are modelled from the specification and are marked as such
in their doc comments.
-/

/-- A content element inside a structured (list-valued) message content.
A Python dict element is represented by its type tag, the value of
item.get with key type and default empty string; any non-dict element is
nonDict. -/
inductive Item where
  | block (btype : String)
  | nonDict
  deriving DecidableEq, Repr

/-- Message content: a plain string, a list of items, or Python None. -/
inductive Content where
  | str (s : String)
  | blocks (items : List Item)
  | null
  deriving DecidableEq, Repr

/-- A chat message: role, content, and the truthiness of the optional
thinking_blocks field. -/
structure Message where
  role : String
  content : Content := .null
  thinking_blocks : Bool := false
  deriving DecidableEq, Repr

/-- The value found under the tool key of a tool_choice dict: either a
dict carrying an optional name field, or a non-dict value. -/
inductive ToolField where
  | named (name : Option String)
  | nonDict
  deriving DecidableEq, Repr

/-- The value of the tool_choice optional parameter: a dict with its type
tag and optional tool field, or a non-dict value. -/
inductive ToolChoiceVal where
  | choiceDict (ctype : Option String) (tool : Option ToolField)
  | nonDict
  deriving DecidableEq, Repr

/-- Tool kind, per the ToolDefinition data model of the spec: kinds are
inferred from the declared shape of the tool; the kind field stands for
the result of that shape inference. The computerUse kind carries the
version string that the beta header is derived from. -/
inductive ToolKind where
  | function
  | toolSearch
  | computerUse (version : String)
  | webSearch
  | codeExecution
  | other
  deriving DecidableEq, Repr

/-- A tool definition, reduced to its detected kind. -/
structure Tool where
  kind : ToolKind
  deriving DecidableEq, Repr

/-- The value of the thinking key: the enabled config written by the
transformation, or any other pre-existing value. -/
inductive ThinkingVal where
  | enabled (budget_tokens : Int)
  | other
  deriving DecidableEq, Repr

/-- The optional parameters dict, restricted to the keys the
transformation reads or writes. A missing key is none. -/
structure OptParams where
  tools : Option (List Tool) := none
  tool_choice : Option ToolChoiceVal := none
  thinking : Option ThinkingVal := none
  max_tokens : Option Int := none
  system : Option (List Content) := none
  metadata_user_id : Option String := none
  deriving DecidableEq, Repr

/-- The litellm_params dict: the originally requested model name, the
model name found in the proxy_server_request body when that dict chain is
present and truthy, and the user_id found in call metadata. -/
structure LitellmParams where
  model : Option String := none
  proxy_body_model : Option String := none
  metadata_user_id : Option String := none
  deriving DecidableEq, Repr

/-- Request headers, restricted to the anthropic-beta header. A list
value is represented by its comma-joined string. -/
structure Headers where
  anthropic_beta : Option String := none
  deriving DecidableEq, Repr

/-- The outbound payload dict. A missing key is none. -/
structure Payload where
  model : Option String := none
  messages : List Message := []
  system : Option (List Content) := none
  tools : Option (List Tool) := none
  tool_choice : Option ToolChoiceVal := none
  max_tokens : Option Int := none
  thinking : Option ThinkingVal := none
  anthropic_beta : Option (List String) := none
  metadata_user_id : Option String := none
  deriving DecidableEq, Repr

/-- The Python truthiness test "tools and len(tools) > 0". -/
def tools_present : Option (List Tool) → Bool
  | some ts => !ts.isEmpty
  | none => false

/-- The invalid tool_choice test shared by the two repair sites: a dict
whose type tag equals tool and whose tool field, defaulting to the empty
dict, is a non-dict or carries no non-empty name. -/
def tool_choice_invalid : ToolChoiceVal → Bool
  | .choiceDict ctype tool =>
    if ctype == some "tool" then
      match tool.getD (.named none) with
      | .named nm => nm.getD "" == ""
      | .nonDict => true
    else false
  | .nonDict => false

/-- VertexAIAnthropicConfig._sanitize_tool_choice: drop an invalid
tool_choice from the optional parameters, leave everything else alone. -/
def sanitize_tool_choice (p : OptParams) : OptParams :=
  match p.tool_choice with
  | none => p
  | some tc => if tool_choice_invalid tc then { p with tool_choice := none } else p

/-- An item tagged thinking or redacted_thinking. -/
def is_thinking_item : Item → Bool
  | .block t => t == "thinking" || t == "redacted_thinking"
  | .nonDict => false

/-- The per-message body of _strip_thinking_from_messages: non-assistant
messages and non-list content pass through; list content of an assistant
message is filtered, and when at least one thinking item was present the
message is rebuilt with the filtered list, collapsing to the empty string
when the filtered list is empty. -/
def strip_message (msg : Message) : Message :=
  if msg.role != "assistant" then msg
  else
    match msg.content with
    | .blocks items =>
      let filtered := items.filter (fun it => !is_thinking_item it)
      let has_thinking := items.any is_thinking_item
      if has_thinking then
        { msg with content := if filtered.isEmpty then .str "" else .blocks filtered }
      else msg
    | _ => msg

/-- VertexAIAnthropicConfig._strip_thinking_from_messages. -/
def strip_thinking_from_messages (msgs : List Message) : List Message :=
  msgs.map strip_message

/-- VertexAIAnthropicConfig._is_already_anthropic_format: true iff some
message has non-empty list content containing a dict item tagged
tool_use, tool_result or thinking. -/
def is_already_anthropic_format (msgs : List Message) : Bool :=
  msgs.any fun msg =>
    match msg.content with
    | .blocks items =>
      !items.isEmpty && items.any (fun it =>
        match it with
        | .block t => t == "tool_use" || t == "tool_result" || t == "thinking"
        | .nonDict => false)
    | _ => false

/-- Whether an assistant message carries reasoning evidence: a truthy
thinking_blocks field, or list content with a thinking or
redacted_thinking item. -/
def has_thinking_evidence (msg : Message) : Bool :=
  msg.thinking_blocks ||
    (match msg.content with
     | .blocks items => items.any is_thinking_item
     | _ => false)

/-- Case folding of a string to a character list, used for the
case-insensitive marker checks. -/
def lowerChars (s : String) : List Char :=
  s.data.map Char.toLower

/-- Whether the pattern is a leading segment of the character list. -/
def leadsWith : List Char → List Char → Bool
  | [], _ => true
  | _ :: _, [] => false
  | a :: as, b :: bs => a == b && leadsWith as bs

/-- Whether the pattern occurs inside the character list. -/
def hasSub (pat : List Char) : List Char → Bool
  | [] => pat.isEmpty
  | c :: cs => leadsWith pat (c :: cs) || hasSub pat cs

/-- The Python test: pat in s.lower(), for an already lowercase pat. -/
def lower_contains (s : String) (pat : String) : Bool :=
  hasSub pat.data (lowerChars s)

/-- The original model resolution of transform_request: litellm_params
model when present, refined by the model found in the body of a truthy
proxy_server_request, falling back to the mapped model argument. -/
def get_original_model (lp : LitellmParams) (model : String) : String :=
  let om := match lp.model with
    | some m => m
    | none => model
  match lp.proxy_body_model with
  | some m => m
  | none => om

/-- Modelled from the spec: translate_system_message of the parent class
is not under src; spec section 4.3 says leading system-role messages are
extracted into a separate ordered sequence. -/
def translate_system_message (msgs : List Message) : List Content :=
  (msgs.takeWhile (fun m => m.role == "system")).map (fun m => m.content)

/-- The provider-managed code execution tool. -/
def codeExecutionTool : Tool := { kind := .codeExecution }

/-- Modelled from the spec: add_code_execution_tool of the parent class
is not under src; spec section 4.3 says a provider-managed code execution
tool is appended when tools are present. -/
def add_code_execution_tool (_msgs : List Message) (tools : List Tool) : List Tool :=
  if tools.isEmpty then tools else tools ++ [codeExecutionTool]

/-- Modelled from the spec: litellm.AnthropicConfig.get_config is not
under src; spec section 4.3 says provider-standard default configuration
fields are merged for keys the caller has not set, and no concrete
default values are specified, so the merge is empty. -/
def merge_config_defaults (p : OptParams) : OptParams := p

/-- The metadata carry-over of transform_request: when litellm metadata
carries a truthy user_id, record it in the metadata of the optional
parameters. -/
def apply_metadata_user_id (lp : LitellmParams) (p : OptParams) : OptParams :=
  match lp.metadata_user_id with
  | some uid => if uid == "" then p else { p with metadata_user_id := some uid }
  | none => p

/-- The optional-parameter updates shared by the two branches: extract
system content into the optional parameters and augment the tool list,
defaulting a missing or falsy tools value to the empty list. -/
def branch_params (messages : List Message) (p : OptParams) : OptParams :=
  let sys := translate_system_message messages
  let p1 := if sys.length > 0 then { p with system := some sys } else p
  let anthropic_messages := messages.filter (fun m => m.role != "system")
  let ts := p1.tools.getD []
  let tools2 := add_code_execution_tool anthropic_messages ts
  if tools2.length > 0 then { p1 with tools := some tools2 } else p1

/-- Building the payload dict by spreading the optional parameters over a
model key and the non-system messages. -/
def payload_of (model : String) (messages : List Message) (p : OptParams) : Payload :=
  { model := some model
    messages := messages.filter (fun m => m.role != "system")
    system := p.system
    tools := p.tools
    tool_choice := p.tool_choice
    thinking := p.thinking
    max_tokens := p.max_tokens
    metadata_user_id := p.metadata_user_id }

/-- The already-structured branch of transform_request: extract system
content into the optional parameters, keep non-system messages as they
are, augment the tool list, merge config defaults, carry the user id, and
build the payload by spreading the optional parameters. Returns the
payload together with the updated optional parameters, which the later
stages keep reading. -/
def anthropic_format_branch (model : String) (messages : List Message)
    (p : OptParams) (lp : LitellmParams) : Payload × OptParams :=
  let p4 := apply_metadata_user_id lp (merge_config_defaults (branch_params messages p))
  (payload_of model messages p4, p4)

/-- Modelled from the spec: AnthropicConfig.transform_request, the
generic chat to structured converter, is not under src. Per spec
sections 4.3 and 6 it extracts system messages, converts the remaining
messages to the structured format, appends the code execution tool when
tools are present, carries the user id from call metadata, and passes the
optional parameters through into the payload together with the model
key. -/
def super_transform_request (model : String) (messages : List Message)
    (p : OptParams) (lp : LitellmParams) : Payload :=
  payload_of model messages (apply_metadata_user_id lp (branch_params messages p))

/-- The branch dispatch of transform_request on the classifier. In the
generic branch the optional parameters are not mutated. -/
def convert_branch (model : String) (messages : List Message)
    (p : OptParams) (lp : LitellmParams) : Payload × OptParams :=
  if is_already_anthropic_format messages then
    anthropic_format_branch model messages p lp
  else
    (super_transform_request model messages p lp, p)

/-- The second repair site: remove an invalid tool_choice from the final
payload. -/
def final_tool_choice_repair (data : Payload) : Payload :=
  match data.tool_choice with
  | some tc => if tool_choice_invalid tc then { data with tool_choice := none } else data
  | none => data

/-- Python int(n * 0.5): truncation of the half toward zero. -/
def pyHalf (n : Int) : Int :=
  if 0 ≤ n then n / 2 else -((-n) / 2)

/-- The thinking budget: the truncated half of max_tokens, floored at
1024 and then capped at max_tokens minus 100, in that order. -/
def thinking_budget (mt : Int) : Int :=
  min (max (pyHalf mt) 1024) (mt - 100)

/-- Whether thinking is requested: always false when tools are present;
otherwise true when the lowered original model name contains thinking,
the lowered anthropic-beta header contains thinking or
interleaved-thinking, or the payload already carries a thinking key. -/
def thinking_requested_check (model : String) (lp : LitellmParams)
    (headers : Headers) (data : Payload) (tools : Option (List Tool)) : Bool :=
  if tools_present tools then false
  else
    let original_model := get_original_model lp model
    let r1 := lower_contains original_model "thinking"
    let hb := headers.anthropic_beta.getD ""
    let r2 := lower_contains hb "thinking" || lower_contains hb "interleaved-thinking"
    let r3 := data.thinking.isSome
    r1 || r2 || r3

/-- The thinking activation stage: when thinking is requested and the
payload has no thinking key, scan every assistant message before the
last message; activation happens iff each of them has thinking evidence,
attaching the enabled config with the computed budget, defaulting
max_tokens to 8000 when the key is absent. -/
def apply_thinking (model : String) (messages : List Message)
    (p : OptParams) (lp : LitellmParams) (headers : Headers)
    (data : Payload) : Payload :=
  let requested := thinking_requested_check model lp headers data p.tools
  if requested && data.thinking.isNone then
    let previous_assistant := messages.dropLast.filter (fun m => m.role == "assistant")
    let can_enable := previous_assistant.all has_thinking_evidence
    if can_enable then
      let mt := data.max_tokens.getD 8000
      { data with thinking := some (.enabled (thinking_budget mt)) }
    else data
  else data

/-- The fixed allow-list of beta flags supported by Vertex AI Claude. -/
def VERTEX_SUPPORTED_BETAS : List String :=
  ["tool-search-tool-2025-10-19", "web-search-2025-03-05",
   "computer-use-2024-10-22", "computer-use-2025-01-24"]

/-- Modelled from the spec: is_tool_search_used of the parent class is
not under src; spec section 4.4 says tool kinds are detected by shape,
modelled here through the kind field. -/
def is_tool_search_used : Option (List Tool) → Bool
  | some ts => ts.any (fun t => t.kind == .toolSearch)
  | none => false

/-- The first computer-use version occurring in a tool list. -/
def first_computer_version : List Tool → Option String
  | [] => none
  | t :: ts =>
    match t.kind with
    | .computerUse v => some v
    | _ => first_computer_version ts

/-- Modelled from the spec: is_computer_tool_used of the parent class is
not under src; detection by shape is modelled through the kind field, and
the detected computer-use version is returned when one is present. -/
def is_computer_tool_used : Option (List Tool) → Option String
  | some ts => first_computer_version ts
  | none => none

/-- Modelled from the spec: is_web_search_tool_used of the parent class
is not under src; detection by shape is modelled through the kind
field. -/
def is_web_search_tool_used : Option (List Tool) → Bool
  | some ts => ts.any (fun t => t.kind == .webSearch)
  | none => false

/-- Modelled from the spec: get_computer_tool_beta_header of the parent
class is not under src; spec sections 4.4 and 6 name the two supported
computer-use tokens and say newer variants fall outside the allow-list,
so the header is the computer-use prefix followed by the version. -/
def get_computer_tool_beta_header (version : String) : String :=
  "computer-use-" ++ version

/-- The beta set built by transform_request: the tool-search token when
tool search is detected, the computer-use header when detected and on
the allow-list, and the web-search token when web search is detected. -/
def detected_betas (tools : Option (List Tool)) : List String :=
  (if is_tool_search_used tools then ["tool-search-tool-2025-10-19"] else []) ++
  (match is_computer_tool_used tools with
   | some v =>
     let hdr := get_computer_tool_beta_header v
     if VERTEX_SUPPORTED_BETAS.contains hdr then [hdr] else []
   | none => []) ++
  (if is_web_search_tool_used tools then ["web-search-2025-03-05"] else [])

/-- The beta emission stage: set the anthropic_beta key iff the set is
non-empty. -/
def apply_betas (p : OptParams) (data : Payload) : Payload :=
  let beta_set := detected_betas p.tools
  if beta_set.isEmpty then data else { data with anthropic_beta := some beta_set }

/-- VertexAIAnthropicConfig.transform_request: sanitize the tool choice,
strip thinking blocks when tools are present, dispatch on the classifier,
drop the model key, repair the final tool choice, run the thinking
activation stage, and emit the beta set. -/
def transform_request (model : String) (messages : List Message)
    (optional_params : OptParams) (litellm_params : LitellmParams)
    (headers : Headers) : Payload :=
  let p := sanitize_tool_choice optional_params
  let messages1 :=
    if tools_present p.tools then strip_thinking_from_messages messages else messages
  let res := convert_branch model messages1 p litellm_params
  let data0 := res.1
  let p1 := res.2
  let data1 := { data0 with model := none }
  let data2 := final_tool_choice_repair data1
  let data3 := apply_thinking model messages1 p1 litellm_params headers data2
  apply_betas p1 data3

/-- A message of the normalized response: primary content and reasoning
content, each none when the field is null or absent. -/
structure RespMessage where
  content : Option String := none
  reasoning_content : Option String := none
  deriving DecidableEq, Repr

/-- A choice of the normalized response; message is none when the
attribute is missing or falsy. -/
structure Choice where
  message : Option RespMessage := none
  deriving DecidableEq, Repr

/-- The normalized response shape. -/
structure ModelResponse where
  model : Option String := none
  choices : List Choice := []
  deriving DecidableEq, Repr

/-- The per-message quirk repair of transform_response: when primary
content is falsy or the empty string and reasoning content is truthy,
copy the reasoning content into the primary content. -/
def fix_message (m : RespMessage) : RespMessage :=
  if (m.content.getD "" == "") && !(m.reasoning_content.getD "" == "") then
    { m with content := m.reasoning_content }
  else m

/-- VertexAIAnthropicConfig.transform_response, applied to the response
already mapped into the generic shape by the base converter (the base
converter is outside src and the spec delegates it): overwrite the model
identifier and run the quirk repair over every choice that carries a
message. -/
def transform_response (model : String) (response : ModelResponse) : ModelResponse :=
  let r := { response with model := some model }
  { r with
    choices := r.choices.map (fun c =>
      match c.message with
      | some m => { c with message := some (fix_message m) }
      | none => c) }

/-- Whether a message carries a thinking or redacted_thinking item in
list-valued content. -/
def message_has_thinking_block (m : Message) : Bool :=
  match m.content with
  | .blocks items => items.any is_thinking_item
  | _ => false

/-- The request signals of the thinking check that do not depend on the
payload: marker in the lowered original model name, or marker in the
lowered anthropic-beta header. -/
def reasoning_marker_requested (model : String) (lp : LitellmParams)
    (h : Headers) : Bool :=
  lower_contains (get_original_model lp model) "thinking" ||
    (lower_contains (h.anthropic_beta.getD "") "thinking" ||
     lower_contains (h.anthropic_beta.getD "") "interleaved-thinking")

/-- The tool-choice repair lifted to the pair of optional parameters and
messages that the two sanitizer repairs act on. -/
def sanitize_stage (q : OptParams × List Message) : OptParams × List Message :=
  (sanitize_tool_choice q.1, q.2)

/-- The thinking-stripping repair lifted to the pair of optional
parameters and messages. -/
def strip_stage (q : OptParams × List Message) : OptParams × List Message :=
  (q.1, strip_thinking_from_messages q.2)

-- ===== helper lemmas =====

@[simp] theorem sanitize_tools (p : OptParams) :
    (sanitize_tool_choice p).tools = p.tools := by
  unfold sanitize_tool_choice
  split
  · rfl
  · split <;> rfl

@[simp] theorem sanitize_thinking (p : OptParams) :
    (sanitize_tool_choice p).thinking = p.thinking := by
  unfold sanitize_tool_choice
  split
  · rfl
  · split <;> rfl

@[simp] theorem sanitize_max_tokens (p : OptParams) :
    (sanitize_tool_choice p).max_tokens = p.max_tokens := by
  unfold sanitize_tool_choice
  split
  · rfl
  · split <;> rfl

@[simp] theorem apply_metadata_tools (lp : LitellmParams) (p : OptParams) :
    (apply_metadata_user_id lp p).tools = p.tools := by
  unfold apply_metadata_user_id
  split
  · split <;> rfl
  · rfl

@[simp] theorem apply_metadata_thinking (lp : LitellmParams) (p : OptParams) :
    (apply_metadata_user_id lp p).thinking = p.thinking := by
  unfold apply_metadata_user_id
  split
  · split <;> rfl
  · rfl

@[simp] theorem apply_metadata_tool_choice (lp : LitellmParams) (p : OptParams) :
    (apply_metadata_user_id lp p).tool_choice = p.tool_choice := by
  unfold apply_metadata_user_id
  split
  · split <;> rfl
  · rfl

@[simp] theorem apply_metadata_max_tokens (lp : LitellmParams) (p : OptParams) :
    (apply_metadata_user_id lp p).max_tokens = p.max_tokens := by
  unfold apply_metadata_user_id
  split
  · split <;> rfl
  · rfl

@[simp] theorem branch_params_thinking (ms : List Message) (p : OptParams) :
    (branch_params ms p).thinking = p.thinking := by
  unfold branch_params
  dsimp only
  split <;> split <;> rfl

@[simp] theorem branch_params_tool_choice (ms : List Message) (p : OptParams) :
    (branch_params ms p).tool_choice = p.tool_choice := by
  unfold branch_params
  dsimp only
  split <;> split <;> rfl

@[simp] theorem branch_params_max_tokens (ms : List Message) (p : OptParams) :
    (branch_params ms p).max_tokens = p.max_tokens := by
  unfold branch_params
  dsimp only
  split <;> split <;> rfl

theorem first_computer_version_append_code (l : List Tool) :
    first_computer_version (l ++ [codeExecutionTool]) = first_computer_version l := by
  induction l with
  | nil => rfl
  | cons t ts ih =>
    simp only [List.cons_append, first_computer_version]
    split <;> simp_all

theorem detected_betas_append_code (l : List Tool) :
    detected_betas (some (l ++ [codeExecutionTool])) = detected_betas (some l) := by
  simp only [detected_betas, is_tool_search_used, is_web_search_tool_used,
    is_computer_tool_used, first_computer_version_append_code, List.any_append]
  simp [codeExecutionTool]

theorem branch_params_tools_cases (ms : List Message) (p : OptParams) :
    (branch_params ms p).tools = p.tools ∨
    ∃ l, p.tools = some l ∧ l ≠ [] ∧
      (branch_params ms p).tools = some (l ++ [codeExecutionTool]) := by
  unfold branch_params add_code_execution_tool
  dsimp only
  split
  case isTrue hsys =>
    cases hp : p.tools with
    | none => simp [hp]
    | some l =>
      cases l with
      | nil => simp [hp]
      | cons x xs =>
        right
        exact ⟨x :: xs, rfl, by simp, by simp [hp]⟩
  case isFalse hsys =>
    cases hp : p.tools with
    | none => simp [hp]
    | some l =>
      cases l with
      | nil => simp [hp]
      | cons x xs =>
        right
        exact ⟨x :: xs, rfl, by simp, by simp [hp]⟩

theorem branch_params_tools_present (ms : List Message) (p : OptParams) :
    tools_present (branch_params ms p).tools = tools_present p.tools := by
  rcases branch_params_tools_cases ms p with h | ⟨l, hl, hne, h⟩
  · rw [h]
  · rw [h, hl]
    unfold tools_present
    cases l with
    | nil => simp at hne
    | cons x xs => simp

theorem branch_params_detected (ms : List Message) (p : OptParams) :
    detected_betas (branch_params ms p).tools = detected_betas p.tools := by
  rcases branch_params_tools_cases ms p with h | ⟨l, hl, hne, h⟩
  · rw [h]
  · rw [h, hl, detected_betas_append_code]

@[simp] theorem payload_of_thinking (m : String) (ms : List Message) (p : OptParams) :
    (payload_of m ms p).thinking = p.thinking := rfl

@[simp] theorem payload_of_tool_choice (m : String) (ms : List Message) (p : OptParams) :
    (payload_of m ms p).tool_choice = p.tool_choice := rfl

@[simp] theorem payload_of_max_tokens (m : String) (ms : List Message) (p : OptParams) :
    (payload_of m ms p).max_tokens = p.max_tokens := rfl

@[simp] theorem payload_of_model (m : String) (ms : List Message) (p : OptParams) :
    (payload_of m ms p).model = some m := rfl

@[simp] theorem payload_of_messages (m : String) (ms : List Message) (p : OptParams) :
    (payload_of m ms p).messages = ms.filter (fun x => x.role != "system") := rfl

@[simp] theorem payload_of_beta (m : String) (ms : List Message) (p : OptParams) :
    (payload_of m ms p).anthropic_beta = none := rfl

@[simp] theorem convert_fst_thinking (model : String) (ms : List Message)
    (p : OptParams) (lp : LitellmParams) :
    (convert_branch model ms p lp).1.thinking = p.thinking := by
  unfold convert_branch anthropic_format_branch super_transform_request
  split <;> simp [merge_config_defaults]

@[simp] theorem convert_fst_tool_choice (model : String) (ms : List Message)
    (p : OptParams) (lp : LitellmParams) :
    (convert_branch model ms p lp).1.tool_choice = p.tool_choice := by
  unfold convert_branch anthropic_format_branch super_transform_request
  split <;> simp [merge_config_defaults]

@[simp] theorem convert_fst_max_tokens (model : String) (ms : List Message)
    (p : OptParams) (lp : LitellmParams) :
    (convert_branch model ms p lp).1.max_tokens = p.max_tokens := by
  unfold convert_branch anthropic_format_branch super_transform_request
  split <;> simp [merge_config_defaults]

@[simp] theorem convert_fst_model (model : String) (ms : List Message)
    (p : OptParams) (lp : LitellmParams) :
    (convert_branch model ms p lp).1.model = some model := by
  unfold convert_branch anthropic_format_branch super_transform_request
  split <;> simp

@[simp] theorem convert_fst_messages (model : String) (ms : List Message)
    (p : OptParams) (lp : LitellmParams) :
    (convert_branch model ms p lp).1.messages = ms.filter (fun x => x.role != "system") := by
  unfold convert_branch anthropic_format_branch super_transform_request
  split <;> simp

@[simp] theorem convert_fst_beta (model : String) (ms : List Message)
    (p : OptParams) (lp : LitellmParams) :
    (convert_branch model ms p lp).1.anthropic_beta = none := by
  unfold convert_branch anthropic_format_branch super_transform_request
  split <;> simp

@[simp] theorem convert_snd_thinking (model : String) (ms : List Message)
    (p : OptParams) (lp : LitellmParams) :
    (convert_branch model ms p lp).2.thinking = p.thinking := by
  unfold convert_branch anthropic_format_branch super_transform_request
  split <;> simp [merge_config_defaults]

@[simp] theorem convert_snd_tools_present (model : String) (ms : List Message)
    (p : OptParams) (lp : LitellmParams) :
    tools_present (convert_branch model ms p lp).2.tools = tools_present p.tools := by
  unfold convert_branch anthropic_format_branch super_transform_request
  split <;> simp [merge_config_defaults, branch_params_tools_present]

@[simp] theorem convert_snd_detected (model : String) (ms : List Message)
    (p : OptParams) (lp : LitellmParams) :
    detected_betas (convert_branch model ms p lp).2.tools = detected_betas p.tools := by
  unfold convert_branch anthropic_format_branch super_transform_request
  split <;> simp [merge_config_defaults, branch_params_detected]

@[simp] theorem final_repair_thinking (d : Payload) :
    (final_tool_choice_repair d).thinking = d.thinking := by
  unfold final_tool_choice_repair
  split
  · split <;> rfl
  · rfl

@[simp] theorem final_repair_messages (d : Payload) :
    (final_tool_choice_repair d).messages = d.messages := by
  unfold final_tool_choice_repair
  split
  · split <;> rfl
  · rfl

@[simp] theorem final_repair_model (d : Payload) :
    (final_tool_choice_repair d).model = d.model := by
  unfold final_tool_choice_repair
  split
  · split <;> rfl
  · rfl

@[simp] theorem final_repair_max_tokens (d : Payload) :
    (final_tool_choice_repair d).max_tokens = d.max_tokens := by
  unfold final_tool_choice_repair
  split
  · split <;> rfl
  · rfl

@[simp] theorem final_repair_beta (d : Payload) :
    (final_tool_choice_repair d).anthropic_beta = d.anthropic_beta := by
  unfold final_tool_choice_repair
  split
  · split <;> rfl
  · rfl

theorem final_repair_tc_of_invalid (d : Payload) (tc : ToolChoiceVal)
    (h : d.tool_choice = some tc) (hi : tool_choice_invalid tc = true) :
    (final_tool_choice_repair d).tool_choice = none := by
  unfold final_tool_choice_repair
  rw [h]
  simp [hi]

theorem final_repair_tc_of_none (d : Payload) (h : d.tool_choice = none) :
    (final_tool_choice_repair d).tool_choice = none := by
  unfold final_tool_choice_repair
  rw [h]
  exact h

@[simp] theorem apply_thinking_model (model : String) (ms : List Message)
    (p : OptParams) (lp : LitellmParams) (h : Headers) (d : Payload) :
    (apply_thinking model ms p lp h d).model = d.model := by
  unfold apply_thinking
  dsimp only
  split
  · split <;> rfl
  · rfl

@[simp] theorem apply_thinking_messages (model : String) (ms : List Message)
    (p : OptParams) (lp : LitellmParams) (h : Headers) (d : Payload) :
    (apply_thinking model ms p lp h d).messages = d.messages := by
  unfold apply_thinking
  dsimp only
  split
  · split <;> rfl
  · rfl

@[simp] theorem apply_thinking_tool_choice (model : String) (ms : List Message)
    (p : OptParams) (lp : LitellmParams) (h : Headers) (d : Payload) :
    (apply_thinking model ms p lp h d).tool_choice = d.tool_choice := by
  unfold apply_thinking
  dsimp only
  split
  · split <;> rfl
  · rfl

@[simp] theorem apply_thinking_beta (model : String) (ms : List Message)
    (p : OptParams) (lp : LitellmParams) (h : Headers) (d : Payload) :
    (apply_thinking model ms p lp h d).anthropic_beta = d.anthropic_beta := by
  unfold apply_thinking
  dsimp only
  split
  · split <;> rfl
  · rfl

@[simp] theorem apply_betas_thinking (p : OptParams) (d : Payload) :
    (apply_betas p d).thinking = d.thinking := by
  unfold apply_betas
  dsimp only
  split <;> rfl

@[simp] theorem apply_betas_model (p : OptParams) (d : Payload) :
    (apply_betas p d).model = d.model := by
  unfold apply_betas
  dsimp only
  split <;> rfl

@[simp] theorem apply_betas_messages (p : OptParams) (d : Payload) :
    (apply_betas p d).messages = d.messages := by
  unfold apply_betas
  dsimp only
  split <;> rfl

@[simp] theorem apply_betas_tool_choice (p : OptParams) (d : Payload) :
    (apply_betas p d).tool_choice = d.tool_choice := by
  unfold apply_betas
  dsimp only
  split <;> rfl

theorem apply_betas_beta (p : OptParams) (d : Payload) :
    (apply_betas p d).anthropic_beta =
      if (detected_betas p.tools).isEmpty then d.anthropic_beta
      else some (detected_betas p.tools) := by
  unfold apply_betas
  dsimp only
  split <;> simp [*]

theorem thinking_requested_of_tools (model : String) (lp : LitellmParams)
    (h : Headers) (d : Payload) (tools : Option (List Tool))
    (htools : tools_present tools = true) :
    thinking_requested_check model lp h d tools = false := by
  unfold thinking_requested_check
  simp [htools]

theorem thinking_requested_of_no_tools (model : String) (lp : LitellmParams)
    (h : Headers) (d : Payload) (tools : Option (List Tool))
    (htools : tools_present tools = false)
    (hd : d.thinking = none) :
    thinking_requested_check model lp h d tools = reasoning_marker_requested model lp h := by
  unfold thinking_requested_check reasoning_marker_requested
  simp [htools, hd]

theorem apply_thinking_char (model : String) (ms : List Message)
    (p : OptParams) (lp : LitellmParams) (h : Headers) (d : Payload)
    (hd : d.thinking = none) :
    apply_thinking model ms p lp h d =
      (if thinking_requested_check model lp h d p.tools &&
          (ms.dropLast.filter (fun m => m.role == "assistant")).all has_thinking_evidence
       then { d with thinking := some (.enabled (thinking_budget (d.max_tokens.getD 8000))) }
       else d) := by
  unfold apply_thinking
  rw [hd]
  simp only [Option.isNone_none, Bool.and_true]
  by_cases hr : thinking_requested_check model lp h d p.tools = true <;>
    by_cases hc :
      (ms.dropLast.filter (fun m => m.role == "assistant")).all has_thinking_evidence = true <;>
    simp [hr, hc]

theorem apply_thinking_of_some (model : String) (ms : List Message)
    (p : OptParams) (lp : LitellmParams) (h : Headers) (d : Payload)
    (t : ThinkingVal) (hd : d.thinking = some t) :
    apply_thinking model ms p lp h d = d := by
  unfold apply_thinking
  rw [hd]
  simp

theorem transform_request_thinking (model : String) (msgs : List Message)
    (p : OptParams) (lp : LitellmParams) (h : Headers)
    (htools : tools_present p.tools = false)
    (hthink : p.thinking = none) :
    (transform_request model msgs p lp h).thinking =
      (if reasoning_marker_requested model lp h &&
          (msgs.dropLast.filter (fun m => m.role == "assistant")).all has_thinking_evidence
       then some (.enabled (thinking_budget (p.max_tokens.getD 8000)))
       else none) := by
  unfold transform_request
  dsimp only
  rw [show (tools_present (sanitize_tool_choice p).tools) = false by
        rw [sanitize_tools]; exact htools]
  simp only [Bool.false_eq_true, if_false]
  rw [apply_betas_thinking]
  have hd2 :
      (final_tool_choice_repair
        { (convert_branch model msgs (sanitize_tool_choice p) lp).1 with model := none }).thinking
        = none := by
    rw [final_repair_thinking]
    show (convert_branch model msgs (sanitize_tool_choice p) lp).1.thinking = none
    rw [convert_fst_thinking, sanitize_thinking]
    exact hthink
  rw [apply_thinking_char _ _ _ _ _ _ hd2]
  rw [thinking_requested_of_no_tools _ _ _ _ _
        (by rw [convert_snd_tools_present, sanitize_tools]; exact htools) hd2]
  have hmt :
      (final_tool_choice_repair
        { (convert_branch model msgs (sanitize_tool_choice p) lp).1 with model := none }).max_tokens
        = p.max_tokens := by
    rw [final_repair_max_tokens]
    show (convert_branch model msgs (sanitize_tool_choice p) lp).1.max_tokens = p.max_tokens
    rw [convert_fst_max_tokens, sanitize_max_tokens]
  rw [hmt]
  split
  · rfl
  · exact hd2

@[simp] theorem set_model_messages (d : Payload) (v : Option String) :
    ({ d with model := v } : Payload).messages = d.messages := rfl

@[simp] theorem set_model_thinking (d : Payload) (v : Option String) :
    ({ d with model := v } : Payload).thinking = d.thinking := rfl

@[simp] theorem set_model_tool_choice (d : Payload) (v : Option String) :
    ({ d with model := v } : Payload).tool_choice = d.tool_choice := rfl

@[simp] theorem set_model_max_tokens (d : Payload) (v : Option String) :
    ({ d with model := v } : Payload).max_tokens = d.max_tokens := rfl

@[simp] theorem set_model_beta (d : Payload) (v : Option String) :
    ({ d with model := v } : Payload).anthropic_beta = d.anthropic_beta := rfl

@[simp] theorem set_model_model (d : Payload) (v : Option String) :
    ({ d with model := v } : Payload).model = v := rfl

theorem any_filter_not_thinking (l : List Item) :
    (l.filter (fun it => !is_thinking_item it)).any is_thinking_item = false := by
  induction l with
  | nil => rfl
  | cons a t ih =>
    by_cases ha : is_thinking_item a = true <;> simp [List.filter_cons, ha, ih]

theorem strip_message_role (m : Message) : (strip_message m).role = m.role := by
  unfold strip_message
  split
  · rfl
  · split
    · dsimp only
      split <;> rfl
    · rfl

theorem strip_message_no_thinking (m : Message) (hr : m.role = "assistant") :
    message_has_thinking_block (strip_message m) = false := by
  obtain ⟨role, content, tb⟩ := m
  simp only at hr
  subst hr
  cases content with
  | str s => simp [strip_message, message_has_thinking_block]
  | null => simp [strip_message, message_has_thinking_block]
  | blocks items =>
    by_cases hany : items.any is_thinking_item = true
    · by_cases hfe : (items.filter (fun it => !is_thinking_item it)).isEmpty = true <;>
        simp [strip_message, message_has_thinking_block, hany, hfe, any_filter_not_thinking]
    · simp only [Bool.not_eq_true] at hany
      simp [strip_message, message_has_thinking_block, hany]

theorem strip_message_idem (m : Message) :
    strip_message (strip_message m) = strip_message m := by
  by_cases hr : m.role = "assistant"
  · obtain ⟨role, content, tb⟩ := m
    simp only at hr
    subst hr
    cases content with
    | str s => simp [strip_message]
    | null => simp [strip_message]
    | blocks items =>
      by_cases hany : items.any is_thinking_item = true
      · by_cases hfe : (items.filter (fun it => !is_thinking_item it)).isEmpty = true <;>
          simp [strip_message, hany, hfe, any_filter_not_thinking]
      · simp only [Bool.not_eq_true] at hany
        simp [strip_message, hany]
  · have hm : strip_message m = m := by
      unfold strip_message
      simp [show (m.role != "assistant") = true by simp [bne_iff_ne, hr]]
    simp [hm]

theorem sanitize_tc_of_invalid (p : OptParams) (tc : ToolChoiceVal)
    (h : p.tool_choice = some tc) (hi : tool_choice_invalid tc = true) :
    (sanitize_tool_choice p).tool_choice = none := by
  unfold sanitize_tool_choice
  rw [h]
  simp [hi]

theorem sanitize_idem (p : OptParams) :
    sanitize_tool_choice (sanitize_tool_choice p) = sanitize_tool_choice p := by
  rcases htc : p.tool_choice with _ | tc
  · have h1 : sanitize_tool_choice p = p := by
      unfold sanitize_tool_choice
      rw [htc]
    rw [h1]
    exact h1
  · by_cases hi : tool_choice_invalid tc = true
    · have h1 : sanitize_tool_choice p = { p with tool_choice := none } := by
        unfold sanitize_tool_choice
        rw [htc]
        simp [hi]
      rw [h1]
      rfl
    · have h1 : sanitize_tool_choice p = p := by
        unfold sanitize_tool_choice
        rw [htc]
        simp [hi]
      rw [h1]
      exact h1

theorem transform_request_messages (model : String) (msgs : List Message)
    (p : OptParams) (lp : LitellmParams) (h : Headers) :
    (transform_request model msgs p lp h).messages =
      (if tools_present p.tools then strip_thinking_from_messages msgs
       else msgs).filter (fun m => m.role != "system") := by
  unfold transform_request
  dsimp only
  rw [apply_betas_messages, apply_thinking_messages, final_repair_messages,
    set_model_messages, convert_fst_messages]
  simp only [sanitize_tools]

theorem apply_thinking_not_requested (model : String) (ms : List Message)
    (p : OptParams) (lp : LitellmParams) (h : Headers) (d : Payload)
    (hr : thinking_requested_check model lp h d p.tools = false) :
    apply_thinking model ms p lp h d = d := by
  unfold apply_thinking
  simp [hr]

theorem detected_betas_subset (tools : Option (List Tool)) :
    ∀ b ∈ detected_betas tools, b ∈ VERTEX_SUPPORTED_BETAS := by
  intro b hb
  unfold detected_betas at hb
  simp only [List.mem_append] at hb
  rcases hb with (hb | hb) | hb
  · split at hb
    · simp only [List.mem_singleton] at hb
      subst hb
      simp [VERTEX_SUPPORTED_BETAS]
    · simp at hb
  · split at hb
    next v heq =>
      split at hb
      next hc =>
        simp only [List.mem_singleton] at hb
        subst hb
        exact List.mem_of_elem_eq_true hc
      next => simp at hb
    next => simp at hb
  · split at hb
    · simp only [List.mem_singleton] at hb
      subst hb
      simp [VERTEX_SUPPORTED_BETAS]
    · simp at hb

theorem transform_request_beta (model : String) (msgs : List Message)
    (p : OptParams) (lp : LitellmParams) (h : Headers) :
    (transform_request model msgs p lp h).anthropic_beta =
      (if (detected_betas p.tools).isEmpty then none
       else some (detected_betas p.tools)) := by
  unfold transform_request
  dsimp only
  rw [apply_betas_beta, apply_thinking_beta, final_repair_beta, set_model_beta,
    convert_fst_beta, convert_snd_detected, sanitize_tools]

/-- C1, amended: for every request whose tool list is non-empty, the
outbound payload of transform_request carries no thinking key provided
the optional parameters carried none (a pre-set thinking value passes
through unchanged, which is what forces the amendment), and no assistant
message of the outbound messages contains a content block tagged
thinking or redacted_thinking. -/
theorem C1_thm (model : String) (msgs : List Message) (p : OptParams)
    (lp : LitellmParams) (h : Headers)
    (htools : tools_present p.tools = true) :
    (p.thinking = none → (transform_request model msgs p lp h).thinking = none) ∧
    ∀ m ∈ (transform_request model msgs p lp h).messages,
      m.role = "assistant" → message_has_thinking_block m = false := by
  constructor
  · intro hthink
    unfold transform_request
    dsimp only
    rw [apply_betas_thinking]
    rw [apply_thinking_not_requested _ _ _ _ _ _
      (thinking_requested_of_tools _ _ _ _ _
        (by rw [convert_snd_tools_present, sanitize_tools]; exact htools))]
    rw [final_repair_thinking, set_model_thinking, convert_fst_thinking, sanitize_thinking]
    exact hthink
  · intro m hm hrole
    rw [transform_request_messages] at hm
    simp only [htools, if_true] at hm
    obtain ⟨hmem, -⟩ := List.mem_filter.mp hm
    unfold strip_thinking_from_messages at hmem
    obtain ⟨m0, hm0, rfl⟩ := List.mem_map.mp hmem
    exact strip_message_no_thinking m0 (by rw [← strip_message_role]; exact hrole)

/-- C2, amended: for every first-turn request (no assistant message
before the last message) with no tools, no pre-set thinking key and the
reasoning marker in the original model name, transform_request attaches
a thinking config whose budget equals min (max (floor of half of
max_tokens) 1024) (max_tokens - 100), the truncated half rather than the
rounded half; the bounds 1024 and max_tokens - 100 hold whenever
max_tokens is at least 1124, which the counterexample shows is
necessary. -/
theorem C2_thm (model : String) (msgs : List Message) (p : OptParams)
    (lp : LitellmParams) (h : Headers) (mt : Int)
    (htools : tools_present p.tools = false)
    (hthink : p.thinking = none)
    (hmarker : lower_contains (get_original_model lp model) "thinking" = true)
    (hfirst : msgs.dropLast.filter (fun m => m.role == "assistant") = [])
    (hmt : p.max_tokens = some mt) :
    (transform_request model msgs p lp h).thinking =
      some (.enabled (thinking_budget mt)) ∧
    (1124 ≤ mt → 1024 ≤ thinking_budget mt ∧ thinking_budget mt ≤ mt - 100) := by
  constructor
  · rw [transform_request_thinking model msgs p lp h htools hthink, hfirst]
    simp [reasoning_marker_requested, hmarker, hmt]
  · intro h1124
    unfold thinking_budget
    refine ⟨le_min (le_max_right _ _) (by omega), min_le_right _ _⟩

/-- C3: for every request where reasoning is requested through the model
name or header marker and no thinking key is pre-set, the outbound
payload of transform_request carries a thinking key iff every assistant
message before the last message exhibits thinking evidence (the empty
scan of a first turn counts as true), so a prior assistant message
without evidence suppresses the key even with the marker present. -/
theorem C3_thm (model : String) (msgs : List Message) (p : OptParams)
    (lp : LitellmParams) (h : Headers)
    (htools : tools_present p.tools = false)
    (hthink : p.thinking = none)
    (hreq : reasoning_marker_requested model lp h = true) :
    (transform_request model msgs p lp h).thinking.isSome =
      (msgs.dropLast.filter (fun m => m.role == "assistant")).all
        has_thinking_evidence := by
  rw [transform_request_thinking model msgs p lp h htools hthink, hreq]
  by_cases hall :
      (msgs.dropLast.filter (fun m => m.role == "assistant")).all
        has_thinking_evidence = true <;>
    simp [hall]

/-- C4: for every request whose tool_choice is a dict of type tool with
a missing or empty name, the outbound payload of transform_request
carries no tool_choice key and nothing is substituted, and the same
repair applied at the second site removes the value from any final
payload that carries it. -/
theorem C4_thm (model : String) (msgs : List Message) (p : OptParams)
    (lp : LitellmParams) (h : Headers) (tc : ToolChoiceVal)
    (htc : p.tool_choice = some tc)
    (hinv : tool_choice_invalid tc = true) :
    (transform_request model msgs p lp h).tool_choice = none ∧
    ∀ d : Payload, d.tool_choice = some tc →
      (final_tool_choice_repair d).tool_choice = none := by
  constructor
  · unfold transform_request
    dsimp only
    rw [apply_betas_tool_choice, apply_thinking_tool_choice]
    apply final_repair_tc_of_none
    rw [set_model_tool_choice, convert_fst_tool_choice]
    exact sanitize_tc_of_invalid p tc htc hinv
  · intro d hd
    exact final_repair_tc_of_invalid d tc hd hinv

/-- C5: the stripping repair maps each message pointwise; an assistant
message never keeps a thinking or redacted_thinking block; when the
removal of present thinking blocks empties list content the content
becomes the empty string rather than an absent field; non-assistant
messages and string content pass through unchanged. -/
theorem C5_thm (msgs : List Message) (m : Message) :
    strip_thinking_from_messages msgs = msgs.map strip_message ∧
    (m.role = "assistant" → message_has_thinking_block (strip_message m) = false) ∧
    (∀ items, m.role = "assistant" → m.content = .blocks items →
      items.any is_thinking_item = true →
      items.filter (fun it => !is_thinking_item it) = [] →
      (strip_message m).content = .str "") ∧
    (m.role ≠ "assistant" → strip_message m = m) ∧
    (∀ s, m.content = .str s → strip_message m = m) := by
  refine ⟨rfl, strip_message_no_thinking m, ?_, ?_, ?_⟩
  · intro items hr hc hany hfe
    obtain ⟨role, content, tb⟩ := m
    simp only at hr hc
    subst hr
    subst hc
    simp [strip_message, hany, hfe]
  · intro hr
    unfold strip_message
    simp [show (m.role != "assistant") = true by simp [bne_iff_ne, hr]]
  · intro s hs
    unfold strip_message
    split
    · rfl
    · rw [hs]

/-- C6: for every request, a present anthropic_beta field of the
outbound payload is a non-empty list whose members all belong to the
fixed four-token allow-list, and when no supported capability is
detected the key is absent. -/
theorem C6_thm (model : String) (msgs : List Message) (p : OptParams)
    (lp : LitellmParams) (h : Headers) :
    (∀ betas, (transform_request model msgs p lp h).anthropic_beta = some betas →
      betas ≠ [] ∧ ∀ b ∈ betas, b ∈ VERTEX_SUPPORTED_BETAS) ∧
    (detected_betas p.tools = [] →
      (transform_request model msgs p lp h).anthropic_beta = none) := by
  constructor
  · intro betas hsome
    rw [transform_request_beta] at hsome
    split at hsome
    · exact absurd hsome (by simp)
    next hne =>
      obtain rfl : detected_betas p.tools = betas := by
        simpa using hsome
      refine ⟨?_, detected_betas_subset p.tools⟩
      simpa [List.isEmpty_iff] using hne
  · intro hempty
    rw [transform_request_beta, hempty]
    rfl

/-- C7: transform_response overwrites the model identifier with the
requested model name, maps each carried message through the quirk
repair, copies the reasoning content into the primary content exactly
when the primary content is empty or absent and the reasoning content is
non-empty, and leaves a message with non-empty primary content
unchanged regardless of reasoning content. -/
theorem C7_thm (model : String) (r : ModelResponse) (m : RespMessage) :
    (transform_response model r).model = some model ∧
    (∀ c ∈ r.choices, ∀ mm, c.message = some mm →
      Choice.mk (some (fix_message mm)) ∈ (transform_response model r).choices) ∧
    (m.content.getD "" = "" → ¬ (m.reasoning_content.getD "" = "") →
      (fix_message m).content = m.reasoning_content) ∧
    (∀ s, m.content = some s → s ≠ "" → fix_message m = m) := by
  refine ⟨rfl, ?_, ?_, ?_⟩
  · intro c hc mm hmm
    have hmem := List.mem_map_of_mem (fun c : Choice =>
      match c.message with
      | some mm2 => { c with message := some (fix_message mm2) }
      | none => c) hc
    dsimp only at hmem
    rw [hmm] at hmem
    exact hmem
  · intro h1 h2
    simp [fix_message, h1, h2]
  · intro s hs hne
    simp [fix_message, hs, hne]

/-- C8: for every request, over both conversion branches, the outbound
payload of transform_request carries no model key. -/
theorem C8_thm (model : String) (msgs : List Message) (p : OptParams)
    (lp : LitellmParams) (h : Headers) :
    (transform_request model msgs p lp h).model = none := by
  unfold transform_request
  dsimp only
  rw [apply_betas_model, apply_thinking_model, final_repair_model, set_model_model]

/-- C9: the tool-choice repair and the thinking-stripping repair are
idempotent, and applied to the pair of optional parameters and messages
they commute, so the two repairs are order-insensitive. -/
theorem C9_thm (p : OptParams) (msgs : List Message) :
    sanitize_tool_choice (sanitize_tool_choice p) = sanitize_tool_choice p ∧
    strip_thinking_from_messages (strip_thinking_from_messages msgs) =
      strip_thinking_from_messages msgs ∧
    sanitize_stage (strip_stage (p, msgs)) = strip_stage (sanitize_stage (p, msgs)) := by
  refine ⟨sanitize_idem p, ?_, rfl⟩
  unfold strip_thinking_from_messages
  rw [List.map_map]
  simp [Function.comp, strip_message_idem]

/-- C10: for every request in which thinking is activated while the
payload carries no max_tokens key, the budget computation falls back to
the default 8000, so the attached budget is 4000. -/
theorem C10_thm (model : String) (msgs : List Message) (p : OptParams)
    (lp : LitellmParams) (h : Headers)
    (htools : tools_present p.tools = false)
    (hthink : p.thinking = none)
    (hmt : p.max_tokens = none)
    (hreq : reasoning_marker_requested model lp h = true)
    (hcan : (msgs.dropLast.filter (fun m => m.role == "assistant")).all
      has_thinking_evidence = true) :
    (transform_request model msgs p lp h).thinking = some (.enabled 4000) := by
  rw [transform_request_thinking model msgs p lp h htools hthink, hreq, hcan]
  have hb : thinking_budget 8000 = 4000 := by decide
  simp [hmt, hb]

/-- C1, counterexample to the claim as stated: a request with a
non-empty tool list whose optional parameters already carry a thinking
value produces an outbound payload that still contains the thinking
key, so the payload is not thinking-free for every request with
tools. -/
theorem C1_cex :
    tools_present (some [({ kind := .function } : Tool)]) = true ∧
    (transform_request "claude"
      [{ role := "user", content := .blocks [.block "tool_result"] }]
      { tools := some [{ kind := .function }], thinking := some .other }
      {} {}).thinking = some .other := by
  constructor
  · decide
  · decide

/-- C1, witness: the amended theorem applied to a concrete request with
one function tool and an assistant message holding a thinking block: the
payload has no thinking key and the stripped assistant message has no
thinking block. -/
theorem C1_wit :
    tools_present (OptParams.tools
      { tools := some [{ kind := .function }] }) = true ∧
    (transform_request "claude"
      [{ role := "assistant", content := .blocks [.block "thinking", .block "text"] }]
      { tools := some [{ kind := .function }] } {} {}).thinking = none ∧
    message_has_thinking_block
      ({ role := "assistant", content := .blocks [.block "text"] } : Message) = false := by
  refine ⟨by decide, ?_, ?_⟩
  · exact (C1_thm "claude"
      [{ role := "assistant", content := .blocks [.block "thinking", .block "text"] }]
      { tools := some [{ kind := .function }] } {} {} (by decide)).1 rfl
  · exact (C1_thm "claude"
      [{ role := "assistant", content := .blocks [.block "thinking", .block "text"] }]
      { tools := some [{ kind := .function }] } {} {} (by decide)).2
      { role := "assistant", content := .blocks [.block "text"] } (by decide) rfl

/-- C2, counterexample to the claim as stated: with max_tokens equal to
1000 the attached budget is 900, and 900 is below the claimed lower
bound 1024, so the claimed inequality fails. -/
theorem C2_cex :
    (transform_request "claude-sonnet-thinking" [{ role := "user" }]
      { max_tokens := some 1000 } {} {}).thinking = some (.enabled 900) ∧
    ¬ (1024 ≤ (900 : Int)) := by
  constructor
  · decide
  · decide

/-- C2, witness: the amended theorem applied to the spec scenario:
max_tokens 8000, model name claude-sonnet-thinking and one user message
yield the enabled thinking config with budget 4000, and the bounds hold
at 8000. -/
theorem C2_wit :
    (transform_request "claude-sonnet-thinking" [{ role := "user" }]
      { max_tokens := some 8000 } {} {}).thinking = some (.enabled 4000) ∧
    1024 ≤ thinking_budget 8000 ∧ thinking_budget 8000 ≤ 8000 - 100 := by
  have h := C2_thm "claude-sonnet-thinking" [{ role := "user" }]
    { max_tokens := some 8000 } {} {} 8000 (by decide) rfl (by decide) (by decide) rfl
  refine ⟨?_, (h.2 (by decide)).1, (h.2 (by decide)).2⟩
  rw [h.1]
  decide

/-- C3, witness: the theorem applied to a concrete multi-turn request
whose prior assistant message has plain string content and hence no
evidence: the payload carries no thinking key although the model name
holds the marker. -/
theorem C3_wit :
    (transform_request "claude-sonnet-thinking"
      [{ role := "user" }, { role := "assistant", content := .str "hello" },
       { role := "user" }] {} {} {}).thinking.isSome =
      (([{ role := "user" }, { role := "assistant", content := .str "hello" },
        { role := "user" }] : List Message).dropLast.filter
          (fun m => m.role == "assistant")).all has_thinking_evidence ∧
    (([{ role := "user" }, { role := "assistant", content := .str "hello" },
      { role := "user" }] : List Message).dropLast.filter
        (fun m => m.role == "assistant")).all has_thinking_evidence = false := by
  refine ⟨C3_thm _ _ _ _ _ (by decide) rfl (by decide), by decide⟩

/-- C4, witness: the theorem applied to a concrete request whose
tool_choice is a type tool dict without a tool field: the outbound
payload has no tool_choice key. -/
theorem C4_wit :
    (transform_request "m" [{ role := "user" }]
      { tool_choice := some (.choiceDict (some "tool") none) } {} {}).tool_choice
      = none := by
  exact (C4_thm "m" [{ role := "user" }]
    { tool_choice := some (.choiceDict (some "tool") none) } {} {}
    (.choiceDict (some "tool") none) rfl (by decide)).1

/-- C5, witness: the theorem applied to concrete messages: an assistant
message holding only a thinking block collapses to empty string content
with no thinking block left, a user message with a thinking block and an
assistant message with string content pass through unchanged. -/
theorem C5_wit :
    message_has_thinking_block
      (strip_message { role := "assistant", content := .blocks [.block "thinking"] })
      = false ∧
    (strip_message
      { role := "assistant", content := .blocks [.block "thinking"] }).content
      = .str "" ∧
    strip_message { role := "user", content := .blocks [.block "thinking"] } =
      { role := "user", content := .blocks [.block "thinking"] } ∧
    strip_message { role := "assistant", content := .str "hi" } =
      { role := "assistant", content := .str "hi" } := by
  have h := C5_thm [] ({ role := "assistant", content := .blocks [.block "thinking"] } : Message)
  have h2 := C5_thm [] ({ role := "user", content := .blocks [.block "thinking"] } : Message)
  have h3 := C5_thm [] ({ role := "assistant", content := .str "hi" } : Message)
  exact ⟨h.2.1 rfl,
    h.2.2.1 [.block "thinking"] rfl rfl (by decide) (by decide),
    h2.2.2.2.1 (by decide),
    h3.2.2.2.2 "hi" rfl⟩

/-- C6, witness: the theorem applied to a concrete request with a web
search tool, whose payload carries exactly the web-search token, and to
a request without tools, whose payload has no anthropic_beta key. -/
theorem C6_wit :
    (transform_request "m" [{ role := "user" }]
      { tools := some [{ kind := .webSearch }] } {} {}).anthropic_beta =
      some ["web-search-2025-03-05"] ∧
    (["web-search-2025-03-05"] ≠ [] ∧
      ∀ b ∈ ["web-search-2025-03-05"], b ∈ VERTEX_SUPPORTED_BETAS) ∧
    (transform_request "m" [{ role := "user" }] {} {} {}).anthropic_beta = none := by
  refine ⟨by decide, ?_, ?_⟩
  · exact (C6_thm "m" [{ role := "user" }]
      { tools := some [{ kind := .webSearch }] } {} {}).1 _ (by decide)
  · exact (C6_thm "m" [{ role := "user" }] {} {} {}).2 (by decide)

/-- C7, witness: the theorem applied to a concrete response: the model
identifier is replaced, the choice with empty content and reasoning
content is repaired to carry the reasoning text, and a message with
non-empty content is unchanged. -/
theorem C7_wit :
    (transform_response "gemini"
      { model := some "x",
        choices := [{ message := some { reasoning_content := some "why" } }] }).model
      = some "gemini" ∧
    Choice.mk (some (fix_message { reasoning_content := some "why" })) ∈
      (transform_response "gemini"
        { model := some "x",
          choices := [{ message := some { reasoning_content := some "why" } }] }).choices ∧
    (fix_message ({ reasoning_content := some "why" } : RespMessage)).content
      = some "why" ∧
    fix_message ({ content := some "text", reasoning_content := some "why" } : RespMessage)
      = { content := some "text", reasoning_content := some "why" } := by
  have h := C7_thm "gemini"
    { model := some "x",
      choices := [{ message := some { reasoning_content := some "why" } }] }
    ({ reasoning_content := some "why" } : RespMessage)
  have h2 := C7_thm "gemini" {}
    ({ content := some "text", reasoning_content := some "why" } : RespMessage)
  exact ⟨h.1, h.2.1 _ (by decide) _ rfl, h.2.2.1 rfl (by decide),
    h2.2.2.2 "text" rfl (by decide)⟩

/-- C10, witness: the theorem applied to a concrete first-turn request
with the marker model name and no max_tokens: the payload carries the
enabled thinking config with budget 4000. -/
theorem C10_wit :
    (transform_request "claude-sonnet-thinking" [{ role := "user" }]
      {} {} {}).thinking = some (.enabled 4000) := by
  exact C10_thm "claude-sonnet-thinking" [{ role := "user" }] {} {} {}
    rfl rfl rfl (by decide) (by decide)
